import Mathlib

/-!
Verification of the discord-oauth2 client library.

The development shallowly embeds the permission bitmask utilities
(src/src/utils/permissions.ts), the error classes (structures/errors),
the HTTP error-construction path (src/src/utils/http.ts) and the
OAuth2Client methods (structures/client) as executable Lean definitions,
and proves the behavioural claims about them.

Modelling conventions:
- JavaScript BigInt values are modelled as Nat (all permission values are
  non-negative and Nat is arbitrary precision, exactly like BigInt).
- BigInt.toString() is modelled by decimal printing (Nat.repr); the
  BigInt(string) conversion is modelled by a decimal parser returning
  Option Nat (none models the TypeError thrown on malformed input).
- Thrown exceptions are modelled with Except: a method that validates its
  arguments and then performs exactly one HTTP request is embedded as a
  function returning Except OAuth2Err HttpReq, where the HttpReq value
  describes the single request handed to the transport.  An Except.error
  result means the method threw before the transport was ever invoked.
- Methods that only build a URL return the URL structurally (base address
  plus query parameters in insertion order), mirroring what the URL and
  URLSearchParams objects of the source serialise.
-/

/-- The fixed permission-flag enumeration of src/src/utils/permissions.ts
(PermissionFlags), in declaration order.  Each value is `1n << kn` in the
source; bit positions 47 and 48 are unused, matching the source. -/
def PermissionFlags : List (String × Nat) := [
  ("CREATE_INSTANT_INVITE", 1 <<< 0),
  ("KICK_MEMBERS", 1 <<< 1),
  ("BAN_MEMBERS", 1 <<< 2),
  ("ADMINISTRATOR", 1 <<< 3),
  ("MANAGE_CHANNELS", 1 <<< 4),
  ("MANAGE_GUILD", 1 <<< 5),
  ("ADD_REACTIONS", 1 <<< 6),
  ("VIEW_AUDIT_LOG", 1 <<< 7),
  ("PRIORITY_SPEAKER", 1 <<< 8),
  ("STREAM", 1 <<< 9),
  ("VIEW_CHANNEL", 1 <<< 10),
  ("SEND_MESSAGES", 1 <<< 11),
  ("SEND_TTS_MESSAGES", 1 <<< 12),
  ("MANAGE_MESSAGES", 1 <<< 13),
  ("EMBED_LINKS", 1 <<< 14),
  ("ATTACH_FILES", 1 <<< 15),
  ("READ_MESSAGE_HISTORY", 1 <<< 16),
  ("MENTION_EVERYONE", 1 <<< 17),
  ("USE_EXTERNAL_EMOJIS", 1 <<< 18),
  ("VIEW_GUILD_INSIGHTS", 1 <<< 19),
  ("CONNECT", 1 <<< 20),
  ("SPEAK", 1 <<< 21),
  ("MUTE_MEMBERS", 1 <<< 22),
  ("DEAFEN_MEMBERS", 1 <<< 23),
  ("MOVE_MEMBERS", 1 <<< 24),
  ("USE_VAD", 1 <<< 25),
  ("CHANGE_NICKNAME", 1 <<< 26),
  ("MANAGE_NICKNAMES", 1 <<< 27),
  ("MANAGE_ROLES", 1 <<< 28),
  ("MANAGE_WEBHOOKS", 1 <<< 29),
  ("MANAGE_GUILD_EXPRESSIONS", 1 <<< 30),
  ("USE_APPLICATION_COMMANDS", 1 <<< 31),
  ("REQUEST_TO_SPEAK", 1 <<< 32),
  ("MANAGE_EVENTS", 1 <<< 33),
  ("MANAGE_THREADS", 1 <<< 34),
  ("CREATE_PUBLIC_THREADS", 1 <<< 35),
  ("CREATE_PRIVATE_THREADS", 1 <<< 36),
  ("USE_EXTERNAL_STICKERS", 1 <<< 37),
  ("SEND_MESSAGES_IN_THREADS", 1 <<< 38),
  ("USE_EMBEDDED_ACTIVITIES", 1 <<< 39),
  ("MODERATE_MEMBERS", 1 <<< 40),
  ("VIEW_CREATOR_MONETIZATION_ANALYTICS", 1 <<< 41),
  ("USE_SOUNDBOARD", 1 <<< 42),
  ("CREATE_GUILD_EXPRESSIONS", 1 <<< 43),
  ("CREATE_EVENTS", 1 <<< 44),
  ("USE_EXTERNAL_SOUNDS", 1 <<< 45),
  ("SEND_VOICE_MESSAGES", 1 <<< 46),
  ("SEND_POLLS", 1 <<< 49),
  ("USE_EXTERNAL_APPS", 1 <<< 50)]

/-- Model of `BigInt.prototype.toString()` (radix 10) on a non-negative
BigInt: decimal printing. -/
def bigIntToString (n : Nat) : String := Nat.repr n

/-- Numeric value of a decimal digit character. -/
def charDigit (c : Char) : Nat := c.toNat - 48

/-- Model of the `BigInt(string)` conversion on the strings this library
produces and consumes: a canonical decimal digit string parses to its
value, anything else (in particular the empty string is excluded here
because the library never feeds one in, and malformed text) is `none`,
modelling the TypeError that the conversion throws. -/
def jsBigInt? (s : String) : Option Nat :=
  if s.data.isEmpty then none
  else if s.data.all Char.isDigit then
    some (Nat.ofDigits 10 ((s.data.map charDigit).reverse))
  else none

/-- The `string | bigint` argument type of hasPermission and
getPermissionFlags. -/
inductive PermInput where
  | str (s : String)
  | big (n : Nat)

/-- The `typeof permissions === 'string' ? BigInt(permissions) :
permissions` coercion shared by hasPermission and getPermissionFlags. -/
def PermInput.toBigInt : PermInput → Option Nat
  | .str s => jsBigInt? s
  | .big n => some n

/-- calculatePermissions (src/src/utils/permissions.ts lines 96 to 99):
reduce with bitwise OR from 0n, then return the decimal string. -/
def calculatePermissions (permissions : List Nat) : String :=
  bigIntToString (permissions.foldl (fun acc perm => acc ||| perm) 0)

/-- hasPermission (src/src/utils/permissions.ts lines 116 to 119):
coerce the string form, then test `(perms & flag) === flag`. -/
def hasPermission (permissions : PermInput) (flag : Nat) : Option Bool :=
  permissions.toBigInt.map (fun perms => perms &&& flag == flag)

/-- getPermissionFlags (src/src/utils/permissions.ts lines 133 to 142):
coerce, then collect every enumeration entry whose value satisfies
`(perms & value) === value`, in declaration order.  The source loop
pushing names onto an array is embedded as filter-then-map. -/
def getPermissionFlags (permissions : PermInput) : Option (List String) :=
  permissions.toBigInt.map (fun perms =>
    (PermissionFlags.filter (fun p => perms &&& p.2 == p.2)).map (fun p => p.1))

/-- digitChar of a decimal digit is a digit character. -/
theorem isDigit_digitChar (d : Nat) (h : d < 10) : (Nat.digitChar d).isDigit = true := by
  interval_cases d <;> decide

/-- charDigit is a left inverse of digitChar on decimal digits. -/
theorem charDigit_digitChar (d : Nat) (h : d < 10) : charDigit (Nat.digitChar d) = d := by
  interval_cases d <;> decide

/-- The fuel-based core decimal printer agrees with the digit expansion of
Mathlib when the fuel suffices and the number is nonzero. -/
theorem toDigitsCore_eq_digits (fuel : Nat) :
    ∀ (n : Nat) (ds : List Char), n < fuel → n ≠ 0 →
      Nat.toDigitsCore 10 fuel n ds = ((Nat.digits 10 n).map Nat.digitChar).reverse ++ ds := by
  induction fuel with
  | zero => intro n ds h _; exact absurd h (Nat.not_lt_zero n)
  | succ fuel ih =>
    intro n ds h hn
    have hpos : 0 < n := Nat.pos_of_ne_zero hn
    rw [Nat.toDigitsCore]
    by_cases h10 : n / 10 = 0
    · have hdig : Nat.digits 10 n = [n % 10] := by
        rw [Nat.digits_def' (b := 10) (by norm_num) hpos, h10, Nat.digits_zero]
      simp [h10, hdig]
    · have hlt : n / 10 < fuel := by
        have h1 : n / 10 < n := Nat.div_lt_self hpos (by norm_num)
        omega
      simp only [h10, if_false]
      rw [ih (n / 10) _ hlt h10, Nat.digits_def' (b := 10) (by norm_num) hpos]
      simp

/-- Character content of the decimal printing of a nonzero Nat. -/
theorem repr_data_eq (n : Nat) (hn : n ≠ 0) :
    (Nat.repr n).data = ((Nat.digits 10 n).map Nat.digitChar).reverse := by
  show (Nat.toDigits 10 n).asString.data = _
  rw [Nat.toDigits, toDigitsCore_eq_digits (n + 1) n [] (Nat.lt_succ_self n) hn]
  simp [List.asString]

/-- Round trip: parsing the decimal printing of a Nat recovers the Nat.
This is the BigInt(combined.toString()) identity the permission claims
rely on. -/
theorem jsBigInt_bigIntToString (n : Nat) : jsBigInt? (bigIntToString n) = some n := by
  by_cases hn : n = 0
  · subst hn; decide
  · have hlt : ∀ d ∈ Nat.digits 10 n, d < 10 := fun d hd =>
      Nat.digits_lt_base (by norm_num) hd
    have hne : Nat.digits 10 n ≠ [] := Nat.digits_ne_nil_iff_ne_zero.mpr hn
    unfold jsBigInt? bigIntToString
    rw [repr_data_eq n hn]
    have hempty : (((Nat.digits 10 n).map Nat.digitChar).reverse).isEmpty = false := by
      simp [List.isEmpty_iff, hne]
    have hall : (((Nat.digits 10 n).map Nat.digitChar).reverse).all Char.isDigit = true := by
      rw [List.all_eq_true]
      intro c hc
      rw [List.mem_reverse, List.mem_map] at hc
      obtain ⟨d, hd, rfl⟩ := hc
      exact isDigit_digitChar d (hlt d hd)
    rw [hempty, hall]
    simp only [Bool.false_eq_true, if_false, if_true]
    congr 1
    have hmap : (((Nat.digits 10 n).map Nat.digitChar).reverse.map charDigit).reverse
        = Nat.digits 10 n := by
      rw [List.map_reverse, List.reverse_reverse, List.map_map]
      have : ∀ d ∈ Nat.digits 10 n, (charDigit ∘ Nat.digitChar) d = d := fun d hd =>
        charDigit_digitChar d (hlt d hd)
      rw [List.map_congr_left this, List.map_id']
    rw [hmap, Nat.ofDigits_digits]

/-- A bit of a fold of bitwise ORs is a bit of the start value or of one
of the folded values. -/
theorem testBit_foldl_or (xs : List Nat) (a i : Nat) :
    (xs.foldl (fun acc perm => acc ||| perm) a).testBit i
      = (a.testBit i || xs.any (fun x => x.testBit i)) := by
  induction xs generalizing a with
  | nil => simp
  | cons x xs ihx => simp [List.foldl, ihx, Nat.testBit_or, Bool.or_assoc]

/-- The AND-equality test of the source characterised bitwise: every bit
of the flag must be present in the set. -/
theorem and_eq_right_iff (m v : Nat) :
    m &&& v = v ↔ ∀ i, v.testBit i = true → m.testBit i = true := by
  constructor
  · intro h i hv
    have hbit := congrArg (fun x => Nat.testBit x i) h
    simp only [Nat.testBit_and, hv, Bool.and_true] at hbit
    exact hbit
  · intro h
    apply Nat.eq_of_testBit_eq
    intro i
    rw [Nat.testBit_and]
    cases hv : v.testBit i with
    | false => simp
    | true => simp [h i hv]

/-- A nonzero Nat has a set bit. -/
theorem exists_testBit_of_ne_zero (n : Nat) (h : n ≠ 0) : ∃ i, n.testBit i = true := by
  by_contra hc
  push_neg at hc
  exact h (Nat.eq_of_testBit_eq fun i => by simpa using hc i)

/-- Every defined permission flag value is nonzero. -/
theorem PermissionFlags_nonzero : ∀ p ∈ PermissionFlags, p.2 ≠ 0 := by decide

/-- Distinct entries of the enumeration occupy disjoint bits. -/
theorem PermissionFlags_disjoint :
    PermissionFlags.Pairwise (fun p q => p.2 &&& q.2 = 0) := by decide

/-- The enumeration has no duplicate entries. -/
theorem PermissionFlags_nodup : PermissionFlags.Nodup := by decide

/-- Symmetric form of the disjointness of the enumeration. -/
theorem PermissionFlags_disjoint_pairs :
    ∀ p ∈ PermissionFlags, ∀ q ∈ PermissionFlags, p ≠ q → p.2 &&& q.2 = 0 := by
  intro p hp q hq hne
  exact List.Pairwise.forall (fun x y h => by rw [Nat.and_comm]; exact h)
    PermissionFlags_disjoint hp hq hne

/-- For a subset S of the enumeration, an enumeration entry passes the
AND-equality test against the combined value of S exactly when it belongs
to S. -/
theorem or_test_iff_mem (S : List (String × Nat)) (hS : S.Sublist PermissionFlags)
    (p : String × Nat) (hp : p ∈ PermissionFlags) :
    ((S.map (fun q => q.2)).foldl (fun acc perm => acc ||| perm) 0 &&& p.2 = p.2)
      ↔ p ∈ S := by
  constructor
  · intro h
    obtain ⟨i, hi⟩ := exists_testBit_of_ne_zero p.2 (PermissionFlags_nonzero p hp)
    have hm := (and_eq_right_iff _ _).mp h i hi
    rw [testBit_foldl_or] at hm
    simp only [Nat.zero_testBit, Bool.false_or] at hm
    obtain ⟨v, hv, hvi⟩ := List.any_eq_true.mp hm
    obtain ⟨q, hq, rfl⟩ := List.mem_map.mp hv
    by_cases hqp : q = p
    · exact hqp ▸ hq
    · exfalso
      have hdisj := PermissionFlags_disjoint_pairs q (hS.subset hq) p hp hqp
      have : (q.2 &&& p.2).testBit i = true := by
        rw [Nat.testBit_and, hvi, hi]; rfl
      rw [hdisj, Nat.zero_testBit] at this
      exact Bool.false_ne_true this
  · intro hpS
    rw [and_eq_right_iff]
    intro i hvi
    rw [testBit_foldl_or]
    simp only [Nat.zero_testBit, Bool.false_or]
    refine List.any_eq_true.mpr ⟨p.2, List.mem_map_of_mem (fun q => q.2) hpS, ?_⟩
    exact hvi

/-- Filtering a duplicate-free list by a test that holds exactly on the
members of one of its sublists recovers that sublist. -/
theorem filter_eq_of_sublist {α : Type} (test : α → Bool) [DecidableEq α] :
    ∀ {S L : List α}, S.Sublist L → L.Nodup →
      (∀ x ∈ L, test x = true ↔ x ∈ S) → L.filter test = S := by
  intro S L hS
  induction hS with
  | slnil => intro _ _; rfl
  | @cons S' L' x hsub ih =>
    intro hnodup htest
    have hxl : x ∉ L' := (List.nodup_cons.mp hnodup).1
    have hxS : x ∉ S' := fun hmem => hxl (hsub.subset hmem)
    have htx : test x = false := by
      cases h : test x with
      | false => rfl
      | true => exact absurd ((htest x (List.mem_cons_self x L')).mp h) hxS
    rw [List.filter_cons, htx]
    simp only [Bool.false_eq_true, if_false]
    exact ih (List.nodup_cons.mp hnodup).2
      (fun y hy => htest y (List.mem_cons_of_mem x hy))
  | @cons₂ S' L' x hsub ih =>
    intro hnodup htest
    have htx : test x = true :=
      (htest x (List.mem_cons_self x L')).mpr (List.mem_cons_self x S')
    rw [List.filter_cons, htx]
    simp only [if_true]
    congr 1
    refine ih (List.nodup_cons.mp hnodup).2 (fun y hy => ?_)
    have hyx : y ≠ x := fun h => (List.nodup_cons.mp hnodup).1 (h ▸ hy)
    rw [htest y (List.mem_cons_of_mem x hy)]
    simp [List.mem_cons, hyx]

/-- C1: for every subset S of the defined permission flags taken in
declaration order (including the empty and the full subset),
getPermissionFlags applied to calculatePermissions of the values of S
returns exactly the flag names of S, in the declaration order of the
enumeration. -/
theorem C1_decompose_combine_roundtrip (S : List (String × Nat))
    (hS : S.Sublist PermissionFlags) :
    getPermissionFlags (PermInput.str (calculatePermissions (S.map (fun p => p.2))))
      = some (S.map (fun p => p.1)) := by
  simp only [getPermissionFlags, PermInput.toBigInt, calculatePermissions,
    jsBigInt_bigIntToString, Option.map_some']
  congr 1
  have hfilter : PermissionFlags.filter
      (fun p => (S.map (fun q => q.2)).foldl (fun acc perm => acc ||| perm) 0 &&& p.2 == p.2)
      = S := by
    apply filter_eq_of_sublist _ hS PermissionFlags_nodup
    intro p hp
    rw [beq_iff_eq]
    exact or_test_iff_mem S hS p hp
  rw [hfilter]

/-- Witness for C1 at a concrete three-element subset of the flags. -/
theorem C1_decompose_combine_roundtrip_witness :
    getPermissionFlags (PermInput.str (calculatePermissions
      ([("KICK_MEMBERS", 1 <<< 1), ("ADMINISTRATOR", 1 <<< 3),
        ("SEND_POLLS", 1 <<< 49)].map (fun p => p.2))))
      = some ["KICK_MEMBERS", "ADMINISTRATOR", "SEND_POLLS"] :=
  C1_decompose_combine_roundtrip _ (by decide)

/-- C3: hasPermission is the AND-equality (conjunction) test: it answers
true exactly when every bit of the flag argument, including multi-bit
combined flag values, is present in the set. -/
theorem C3_hasPermission_and_equality (set flag : Nat) :
    hasPermission (PermInput.big set) flag = some true ↔ set &&& flag = flag := by
  simp [hasPermission, PermInput.toBigInt]

/-- C8: combine of a one-element list is the identity: for every defined
flag, calculatePermissions applied to that single flag prints exactly the
decimal-string form of the flag, and parsing it back (the exact-integer
comparison form) recovers the flag value. -/
theorem C8_single_flag_combine_identity (p : String × Nat) (_hp : p ∈ PermissionFlags) :
    calculatePermissions [p.2] = bigIntToString p.2 ∧
      jsBigInt? (calculatePermissions [p.2]) = some p.2 := by
  have hfold : calculatePermissions [p.2] = bigIntToString p.2 := by
    simp [calculatePermissions, Nat.zero_or]
  exact ⟨hfold, by rw [hfold]; exact jsBigInt_bigIntToString p.2⟩

/-- Witness for C8 at the first defined flag. -/
theorem C8_single_flag_combine_identity_witness :
    calculatePermissions [1 <<< 0] = bigIntToString (1 <<< 0) ∧
      jsBigInt? (calculatePermissions [1 <<< 0]) = some (1 <<< 0) :=
  C8_single_flag_combine_identity ("CREATE_INSTANT_INVITE", 1 <<< 0) (by decide)

/-- C9: hasPermission of flag value 0 is vacuously true for every
permission set. -/
theorem C9_hasPermission_zero_flag (x : Nat) :
    hasPermission (PermInput.big x) 0 = some true := by
  simp [hasPermission, PermInput.toBigInt, Nat.and_zero]

/-- C10: passing a permission set in decimal-string form is
observationally identical to passing it as an exact integer, for both
hasPermission and getPermissionFlags, at every bit width (Nat is
arbitrary precision, as is BigInt). -/
theorem C10_string_form_refines_int_form (s flag : Nat) :
    hasPermission (PermInput.str (bigIntToString s)) flag
        = hasPermission (PermInput.big s) flag ∧
      getPermissionFlags (PermInput.str (bigIntToString s))
        = getPermissionFlags (PermInput.big s) := by
  constructor <;>
    simp [hasPermission, getPermissionFlags, PermInput.toBigInt, jsBigInt_bigIntToString]

/-- The three error classes of structures/errors (OAuth2Error subclasses):
ConfigurationError, ValidationError, and DiscordAPIRequestError with its
statusCode, optional provider code and optional field-error map.  The
field-error record (Record of string to unknown) is modelled opaquely as
an association list. -/
inductive OAuth2Err where
  | configuration (message : String)
  | validation (message : String)
  | request (message : String) (statusCode : Nat) (code : Option Nat)
      (errors : Option (List (String × String)))
deriving DecidableEq

/-- Shape of a parsed Discord error body (structures/types DiscordAPIError);
at runtime any field may be missing, so all fields are optional here. -/
structure DiscordAPIErrorData where
  code : Option Nat
  message : Option String
  errors : Option (List (String × String))
deriving DecidableEq

/-- Outcome of response.json() on a non-success response: the promise can
reject (malformed body), resolve to a falsy value, or resolve to an
object read as a DiscordAPIError. -/
inductive BodyParse where
  | failure
  | nullish
  | object (e : DiscordAPIErrorData)
deriving DecidableEq

/-- The observable parts of a fetch Response used by HttpClient.request:
ok, status, statusText, whether the content-type includes
application/json, and the body parse outcome. -/
structure HttpResponse where
  ok : Bool
  status : Nat
  statusText : String
  contentTypeJson : Bool
  body : BodyParse
deriving DecidableEq

/-- JavaScript `a || b` on an optionally-present string: undefined and
the empty string are falsy. -/
def jsOrStr (a : Option String) (b : String) : String :=
  match a with
  | some s => if s.isEmpty then b else s
  | none => b

/-- Error-construction path of HttpClient.request
(src/src/utils/http.ts lines 72 to 94): on a non-success response, parse
the JSON error body when the content-type says JSON (a rejected parse is
swallowed and a falsy parse is ignored), then throw a
DiscordAPIRequestError with `errorData?.message || response.statusText ||
'Unknown error'`, the status code, and the optional provider fields. -/
def HttpClient.request (resp : HttpResponse) : Except OAuth2Err Unit :=
  if resp.ok then Except.ok ()
  else
    let errorData : Option DiscordAPIErrorData :=
      if resp.contentTypeJson then
        match resp.body with
        | BodyParse.object e => some e
        | _ => none
      else none
    Except.error (OAuth2Err.request
      (jsOrStr (errorData.bind (fun e => e.message)) (jsOrStr (some resp.statusText) "Unknown error"))
      resp.status
      (errorData.bind (fun e => e.code))
      (errorData.bind (fun e => e.errors)))

/-- Minimal JSON value tree; JSON.stringify of the member payload is
modelled structurally by this tree (undefined-valued properties are
omitted, exactly as JSON.stringify omits them). -/
inductive Json where
  | str (s : String)
  | num (n : Int)
  | bool (b : Bool)
  | null
  | arr (elems : List Json)
  | obj (fields : List (String × Json))

/-- Field projection on a JSON object. -/
def Json.getField : Json → String → Option Json
  | Json.obj fields, key => fields.lookup key
  | _, _ => none

/-- Body attached to a request: none, a form-encoded string, or a JSON
payload. -/
inductive ReqBody where
  | empty
  | form (encoded : String)
  | json (payload : Json)

/-- One HTTP request as handed to the transport: method, absolute URL,
headers in insertion order, body. -/
structure HttpReq where
  method : String
  url : String
  headers : List (String × String)
  body : ReqBody

/-- The fixed User-Agent header value attached by HttpClient. -/
def userAgentHeader : String := "discord-oauth2 (https://github.com/0neShot101/discord-oauth2)"

/-- HttpClient.get: GET with the default User-Agent then the caller's
headers. -/
def HttpClient.getReq (url : String) (headers : List (String × String)) : HttpReq :=
  ⟨"GET", url, ("User-Agent", userAgentHeader) :: headers, ReqBody.empty⟩

/-- HttpClient.post: POST with form-encoded content type. -/
def HttpClient.postReq (url : String) (body : String) (headers : List (String × String)) : HttpReq :=
  ⟨"POST", url,
    ("User-Agent", userAgentHeader) :: ("Content-Type", "application/x-www-form-urlencoded") :: headers,
    ReqBody.form body⟩

/-- HttpClient.put: PUT with JSON content type. -/
def HttpClient.putReq (url : String) (payload : Json) (headers : List (String × String)) : HttpReq :=
  ⟨"PUT", url,
    ("User-Agent", userAgentHeader) :: ("Content-Type", "application/json") :: headers,
    ReqBody.json payload⟩

/-- The fixed OAuth2 endpoints of utils/helpers (DISCORD_OAUTH2_URLS). -/
def DISCORD_AUTHORIZE_URL : String := "https://discord.com/oauth2/authorize"

/-- Token endpoint. -/
def DISCORD_TOKEN_URL : String := "https://discord.com/api/oauth2/token"

/-- Token revocation endpoint. -/
def DISCORD_TOKEN_REVOKE_URL : String := "https://discord.com/api/oauth2/token/revoke"

/-- Default versioned REST base (utils/helpers DEFAULT_API_ENDPOINT). -/
def DEFAULT_API_ENDPOINT : String := "https://discord.com/api/v10"

/-- A built authorize URL, kept structural: base address plus the search
parameters in insertion order (what URLSearchParams serialises). -/
structure BuiltUrl where
  base : String
  query : List (String × String)

/-- The `if (value !== undefined) url.searchParams.set(key, String(value))`
loop of utils/helpers buildUrl: keep the defined parameters in order. -/
def queryOf (params : List (String × Option String)) : List (String × String) :=
  params.filterMap (fun p => p.2.map (fun v => (p.1, v)))

/-- utils/helpers buildUrl, with the URL kept structural. -/
def buildUrl (baseUrl : String) (params : List (String × Option String)) : BuiltUrl :=
  ⟨baseUrl, queryOf params⟩

/-- utils/helpers scopesToString: space-join. -/
def scopesToString (scopes : List String) : String := String.intercalate " " scopes

/-- The `number | string` permissions option. -/
inductive PermissionsParam where
  | num (n : Nat)
  | str (s : String)

/-- utils/helpers normalizePermissions: undefined stays undefined,
anything else goes through String(value) (decimal for numbers). -/
def normalizePermissions : Option PermissionsParam → Option String
  | none => none
  | some (PermissionsParam.num n) => some (Nat.repr n)
  | some (PermissionsParam.str s) => some s

/-- String(boolean) of JavaScript. -/
def jsBoolString (b : Bool) : String := if b then "true" else "false"

/-- The base64 alphabet used by Buffer.toString of base64. -/
def base64Table : List Char :=
  "ABCDEFGHIJKLMNOPQRSTUVWXYZabcdefghijklmnopqrstuvwxyz0123456789+/".data

/-- One base64 alphabet character. -/
def base64Char (n : Nat) : Char := base64Table.getD n '='

/-- Base64 of a byte list (model of Buffer.from(s).toString of base64). -/
def base64Encode : List Nat → String
  | [] => ""
  | [b1] => String.mk [base64Char (b1 / 4), base64Char (b1 % 4 * 16), '=', '=']
  | [b1, b2] => String.mk [base64Char (b1 / 4), base64Char (b1 % 4 * 16 + b2 / 16),
      base64Char (b2 % 16 * 4), '=']
  | b1 :: b2 :: b3 :: rest =>
    String.mk [base64Char (b1 / 4), base64Char (b1 % 4 * 16 + b2 / 16),
      base64Char (b2 % 16 * 4 + b3 / 64), base64Char (b3 % 64)] ++ base64Encode rest

/-- utils/helpers encodeBasicAuth: the literal Basic prefix plus base64 of
id:secret. -/
def encodeBasicAuth (clientId clientSecret : String) : String :=
  "Basic " ++ base64Encode ((clientId ++ ":" ++ clientSecret).toUTF8.toList.map (fun b => b.toNat))

/-- One hexadecimal digit character (uppercase), for percent-encoding. -/
def hexDigitChar (n : Nat) : Char := "0123456789ABCDEF".data.getD n '0'

/-- application/x-www-form-urlencoded encoding of one byte: space becomes
plus, unreserved bytes stay, the rest is percent-encoded. -/
def formEncodeByte (b : Nat) : String :=
  if b = 32 then "+"
  else if (48 ≤ b ∧ b ≤ 57) ∨ (65 ≤ b ∧ b ≤ 90) ∨ (97 ≤ b ∧ b ≤ 122)
      ∨ b = 42 ∨ b = 45 ∨ b = 46 ∨ b = 95 then String.mk [Char.ofNat b]
  else String.mk ['%', hexDigitChar (b / 16), hexDigitChar (b % 16)]

/-- Form-encode a string byte by byte over its UTF-8 bytes. -/
def formEncode (s : String) : String :=
  String.join (s.toUTF8.toList.map (fun b => formEncodeByte b.toNat))

/-- utils/helpers toFormUrlEncoded: URLSearchParams over the defined
entries, serialised in insertion order. -/
def toFormUrlEncoded (data : List (String × Option String)) : String :=
  String.intercalate "&"
    (data.filterMap (fun p => p.2.map (fun v => formEncode p.1 ++ "=" ++ formEncode v)))

/-- Constructor options of the client (structures/types
OAuth2ClientOptions); required fields are modelled optional because the
constructor itself checks presence with JavaScript truthiness. -/
structure OAuth2ClientOptions where
  clientId : Option String
  clientSecret : Option String
  redirectUri : Option String
  apiEndpoint : Option String
  botToken : Option String

/-- JavaScript falsiness of an optionally-present string: undefined or
empty. -/
def falsyStr : Option String → Bool
  | none => true
  | some s => s.isEmpty

/-- The OAuth2Client state after successful construction. -/
structure OAuth2Client where
  clientId : String
  clientSecret : String
  redirectUri : String
  apiEndpoint : String
  botToken : Option String

/-- The OAuth2Client constructor (structures/client lines 454 to 463):
throws a ValidationError when clientId, clientSecret or redirectUri is
missing or empty, defaults the endpoint, and stores the optional bot
token unchecked. -/
def OAuth2Client.create (options : OAuth2ClientOptions) : Except OAuth2Err OAuth2Client :=
  if falsyStr options.clientId || falsyStr options.clientSecret || falsyStr options.redirectUri then
    Except.error (OAuth2Err.validation "clientId, clientSecret, and redirectUri are required")
  else
    Except.ok ⟨options.clientId.getD "", options.clientSecret.getD "",
      options.redirectUri.getD "", jsOrStr options.apiEndpoint DEFAULT_API_ENDPOINT,
      options.botToken⟩

/-- setBotToken (structures/client lines 471 to 474): throws a
ValidationError on an empty token, otherwise replaces the stored token. -/
def OAuth2Client.setBotToken (c : OAuth2Client) (botToken : String) : Except OAuth2Err OAuth2Client :=
  if botToken.isEmpty then Except.error (OAuth2Err.validation "Bot token is required")
  else Except.ok { c with botToken := some botToken }

/-- Options of generateAuthUrl (structures/types AuthorizationUrlOptions),
with values pre-stringified where the source applies String(value). -/
structure AuthorizationUrlOptions where
  scopes : List String
  state : Option String
  responseType : Option String
  prompt : Option String
  integrationType : Option Nat
  guildId : Option String
  disableGuildSelect : Option Bool
  permissions : Option PermissionsParam

/-- generateAuthUrl (structures/client lines 492 to 509): reject an empty
scope list, then build the authorize URL with the documented query
parameters in source order. -/
def OAuth2Client.generateAuthUrl (c : OAuth2Client) (options : AuthorizationUrlOptions) :
    Except OAuth2Err BuiltUrl :=
  if options.scopes.isEmpty then
    Except.error (OAuth2Err.validation "At least one scope is required")
  else
    Except.ok (buildUrl DISCORD_AUTHORIZE_URL [
      ("client_id", some c.clientId),
      ("redirect_uri", some c.redirectUri),
      ("response_type", some (jsOrStr options.responseType "code")),
      ("scope", some (scopesToString options.scopes)),
      ("state", options.state),
      ("prompt", options.prompt),
      ("integration_type", options.integrationType.map (fun n => Nat.repr n)),
      ("guild_id", options.guildId),
      ("disable_guild_select", options.disableGuildSelect.map jsBoolString),
      ("permissions", normalizePermissions options.permissions)])

/-- Options of generateBotAuthUrl (structures/types
BotAuthorizationUrlOptions). -/
structure BotAuthorizationUrlOptions where
  permissions : Option PermissionsParam
  guildId : Option String
  disableGuildSelect : Option Bool
  scopes : Option (List String)
  state : Option String

/-- generateBotAuthUrl (structures/client lines 525 to 543): prepend the
bot scope, and only when extra scopes were supplied and non-empty also
append redirect_uri and response_type=code to the parameters. -/
def OAuth2Client.generateBotAuthUrl (c : OAuth2Client) (options : BotAuthorizationUrlOptions) :
    BuiltUrl :=
  let scopes : List String :=
    match options.scopes with
    | some extra => "bot" :: extra
    | none => ["bot"]
  let params : List (String × Option String) := [
    ("client_id", some c.clientId),
    ("scope", some (scopesToString scopes)),
    ("permissions", normalizePermissions options.permissions),
    ("guild_id", options.guildId),
    ("disable_guild_select", options.disableGuildSelect.map jsBoolString),
    ("state", options.state)]
  let params :=
    match options.scopes with
    | some extra =>
      if extra.isEmpty then params
      else params ++ [("redirect_uri", some c.redirectUri), ("response_type", some "code")]
    | none => params
  buildUrl DISCORD_AUTHORIZE_URL params

/-- exchangeCode (structures/client lines 560 to 578): reject an empty
code, else POST the authorization_code grant with Basic auth. -/
def OAuth2Client.exchangeCode (c : OAuth2Client) (code : String) : Except OAuth2Err HttpReq :=
  if code.isEmpty then Except.error (OAuth2Err.validation "Authorization code is required")
  else
    Except.ok (HttpClient.postReq DISCORD_TOKEN_URL
      (toFormUrlEncoded [
        ("grant_type", some "authorization_code"),
        ("code", some code),
        ("redirect_uri", some c.redirectUri)])
      [("Authorization", encodeBasicAuth c.clientId c.clientSecret)])

/-- refreshToken (structures/client lines 594 to 612). -/
def OAuth2Client.refreshToken (c : OAuth2Client) (refreshToken : String) : Except OAuth2Err HttpReq :=
  if refreshToken.isEmpty then Except.error (OAuth2Err.validation "Refresh token is required")
  else
    Except.ok (HttpClient.postReq DISCORD_TOKEN_URL
      (toFormUrlEncoded [
        ("grant_type", some "refresh_token"),
        ("refresh_token", some refreshToken)])
      [("Authorization", encodeBasicAuth c.clientId c.clientSecret)])

/-- revokeToken (structures/client lines 652 to 665). -/
def OAuth2Client.revokeToken (c : OAuth2Client) (token : String) (tokenTypeHint : Option String) :
    Except OAuth2Err HttpReq :=
  if token.isEmpty then Except.error (OAuth2Err.validation "Token is required")
  else
    Except.ok (HttpClient.postReq DISCORD_TOKEN_REVOKE_URL
      (toFormUrlEncoded [
        ("token", some token),
        ("token_type_hint", tokenTypeHint)])
      [("Authorization", encodeBasicAuth c.clientId c.clientSecret)])

/-- getCurrentAuthorizationInfo (structures/client lines 735 to 743). -/
def OAuth2Client.getCurrentAuthorizationInfo (c : OAuth2Client) (accessToken : String) :
    Except OAuth2Err HttpReq :=
  if accessToken.isEmpty then Except.error (OAuth2Err.validation "Access token is required")
  else
    Except.ok (HttpClient.getReq (c.apiEndpoint ++ "/oauth2/@me")
      [("Authorization", "Bearer " ++ accessToken)])

/-- getUser (structures/client lines 758 to 766). -/
def OAuth2Client.getUser (c : OAuth2Client) (accessToken : String) : Except OAuth2Err HttpReq :=
  if accessToken.isEmpty then Except.error (OAuth2Err.validation "Access token is required")
  else
    Except.ok (HttpClient.getReq (c.apiEndpoint ++ "/users/@me")
      [("Authorization", "Bearer " ++ accessToken)])

/-- getUserGuilds (structures/client lines 781 to 789). -/
def OAuth2Client.getUserGuilds (c : OAuth2Client) (accessToken : String) : Except OAuth2Err HttpReq :=
  if accessToken.isEmpty then Except.error (OAuth2Err.validation "Access token is required")
  else
    Except.ok (HttpClient.getReq (c.apiEndpoint ++ "/users/@me/guilds")
      [("Authorization", "Bearer " ++ accessToken)])

/-- getUserConnections (structures/client lines 803 to 811). -/
def OAuth2Client.getUserConnections (c : OAuth2Client) (accessToken : String) :
    Except OAuth2Err HttpReq :=
  if accessToken.isEmpty then Except.error (OAuth2Err.validation "Access token is required")
  else
    Except.ok (HttpClient.getReq (c.apiEndpoint ++ "/users/@me/connections")
      [("Authorization", "Bearer " ++ accessToken)])

/-- Options of addUserToGuild (structures/types AddGuildMemberOptions). -/
structure AddGuildMemberOptions where
  nick : Option String
  roles : Option (List String)
  mute : Option Bool
  deaf : Option Bool

/-- The JSON.stringify payload of addUserToGuild: access_token plus the
supplied optional member fields, undefined fields omitted. -/
def addGuildMemberPayload (userAccessToken : String) (options : AddGuildMemberOptions) : Json :=
  Json.obj ([("access_token", Json.str userAccessToken)]
    ++ (match options.nick with | some n => [("nick", Json.str n)] | none => [])
    ++ (match options.roles with | some rs => [("roles", Json.arr (rs.map Json.str))] | none => [])
    ++ (match options.mute with | some b => [("mute", Json.bool b)] | none => [])
    ++ (match options.deaf with | some b => [("deaf", Json.bool b)] | none => []))

/-- addUserToGuild (structures/client lines 676 to 700): require a truthy
bot token and non-empty ids and token, then issue the single PUT with the
Bot auth header. -/
def OAuth2Client.addUserToGuild (c : OAuth2Client) (guildId userId userAccessToken : String)
    (options : AddGuildMemberOptions) : Except OAuth2Err HttpReq :=
  if falsyStr c.botToken then
    Except.error (OAuth2Err.validation "Bot token is required to add members to a guild")
  else if guildId.isEmpty then Except.error (OAuth2Err.validation "Guild ID is required")
  else if userId.isEmpty then Except.error (OAuth2Err.validation "User ID is required")
  else if userAccessToken.isEmpty then
    Except.error (OAuth2Err.validation "User access token is required")
  else
    Except.ok (HttpClient.putReq
      (c.apiEndpoint ++ "/guilds/" ++ guildId ++ "/members/" ++ userId)
      (addGuildMemberPayload userAccessToken options)
      [("Authorization", "Bot " ++ c.botToken.getD "")])

/-- A string that is not the empty string has isEmpty false. -/
theorem isEmpty_false_of_ne (s : String) (h : s ≠ "") : s.isEmpty = false := by
  cases he : s.isEmpty with
  | false => rfl
  | true => exact absurd ((String.isEmpty_iff s).mp he) h

/-- Looking a key up in the built query skips a parameter with a different
key whether or not that parameter was defined. -/
theorem lookup_queryOf_cons_ne (k k' : String) (v : Option String)
    (rest : List (String × Option String)) (h : (k == k') = false) :
    List.lookup k (queryOf ((k', v) :: rest)) = List.lookup k (queryOf rest) := by
  cases v <;> simp [queryOf, List.filterMap_cons, List.lookup, h]

/-- Looking a key up in the built query finds the first defined parameter
with that key. -/
theorem lookup_queryOf_cons_some (k : String) (v : String)
    (rest : List (String × Option String)) :
    List.lookup k (queryOf ((k, some v) :: rest)) = some v := by
  simp [queryOf, List.filterMap_cons, List.lookup]

/-- The empty parameter list builds an empty query. -/
theorem lookup_queryOf_nil (k : String) : List.lookup k (queryOf []) = none := rfl

/-- Space-joining the bot scope alone gives the literal bot string. -/
theorem scopesToString_bot : scopesToString ["bot"] = "bot" := rfl

/-- C2 counterexample: the claim says construction with an empty redirect
URI raises a ConfigurationError-class error, but at this concrete input
the constructor raises a ValidationError, which is a sibling class of
ConfigurationError, not a subclass, so no ConfigurationError-class error
is raised. -/
theorem C2_configuration_class_counterexample :
    ¬ ∃ m, OAuth2Client.create ⟨some "client-id", some "client-secret", some "", none, none⟩
        = Except.error (OAuth2Err.configuration m) := by
  rintro ⟨m, h⟩
  rw [show OAuth2Client.create ⟨some "client-id", some "client-secret", some "", none, none⟩
      = Except.error (OAuth2Err.validation "clientId, clientSecret, and redirectUri are required")
    from rfl] at h
  exact OAuth2Err.noConfusion (Except.error.inj h)

/-- C2 (amended): constructing the client with a missing or empty client
identifier, client secret, or redirect URI raises a ValidationError-class
error synchronously (the constructor is pure: no request value is ever
produced), and setBotToken with an empty value raises the same
ValidationError class. -/
theorem C2_construction_validation (o : OAuth2ClientOptions)
    (h : (falsyStr o.clientId || falsyStr o.clientSecret || falsyStr o.redirectUri) = true) :
    OAuth2Client.create o
        = Except.error (OAuth2Err.validation "clientId, clientSecret, and redirectUri are required")
      ∧ ∀ c : OAuth2Client, c.setBotToken ""
        = Except.error (OAuth2Err.validation "Bot token is required") := by
  constructor
  · simp [OAuth2Client.create, h]
  · intro c
    rfl

/-- Witness for C2 at a concrete empty redirect URI and a concrete
client. -/
theorem C2_construction_validation_witness :
    OAuth2Client.create ⟨some "id", some "secret", some "", none, none⟩
        = Except.error (OAuth2Err.validation "clientId, clientSecret, and redirectUri are required")
      ∧ OAuth2Client.setBotToken ⟨"id", "secret", "https://cb.example", DEFAULT_API_ENDPOINT, none⟩ ""
        = Except.error (OAuth2Err.validation "Bot token is required") := by
  obtain ⟨h1, h2⟩ :=
    C2_construction_validation ⟨some "id", some "secret", some "", none, none⟩ (by decide)
  exact ⟨h1, h2 _⟩

/-- C5: every client operation with a required argument rejects the empty
argument (empty scope list for generateAuthUrl, empty string for the
others) with a ValidationError, synchronously: the Except.error result is
produced before any HttpReq is handed to the transport. -/
theorem C5_empty_required_arguments (c : OAuth2Client) (o : AuthorizationUrlOptions)
    (hint : Option String) (hscopes : o.scopes = []) :
    c.generateAuthUrl o = Except.error (OAuth2Err.validation "At least one scope is required")
      ∧ c.exchangeCode "" = Except.error (OAuth2Err.validation "Authorization code is required")
      ∧ c.refreshToken "" = Except.error (OAuth2Err.validation "Refresh token is required")
      ∧ c.revokeToken "" hint = Except.error (OAuth2Err.validation "Token is required")
      ∧ c.getCurrentAuthorizationInfo ""
          = Except.error (OAuth2Err.validation "Access token is required")
      ∧ c.getUser "" = Except.error (OAuth2Err.validation "Access token is required")
      ∧ c.getUserGuilds "" = Except.error (OAuth2Err.validation "Access token is required")
      ∧ c.getUserConnections "" = Except.error (OAuth2Err.validation "Access token is required") := by
  refine ⟨?_, rfl, rfl, rfl, rfl, rfl, rfl, rfl⟩
  simp [OAuth2Client.generateAuthUrl, hscopes]

/-- Witness for C5 at a concrete client, option record and hint. -/
theorem C5_empty_required_arguments_witness :
    OAuth2Client.generateAuthUrl ⟨"id", "secret", "https://cb.example", DEFAULT_API_ENDPOINT, none⟩
        ⟨[], none, none, none, none, none, none, none⟩
      = Except.error (OAuth2Err.validation "At least one scope is required")
    ∧ OAuth2Client.exchangeCode ⟨"id", "secret", "https://cb.example", DEFAULT_API_ENDPOINT, none⟩ ""
      = Except.error (OAuth2Err.validation "Authorization code is required") := by
  obtain ⟨h1, h2, _⟩ :=
    C5_empty_required_arguments ⟨"id", "secret", "https://cb.example", DEFAULT_API_ENDPOINT, none⟩
      ⟨[], none, none, none, none, none, none, none⟩ none rfl
  exact ⟨h1, h2⟩

/-- C4: addUserToGuild with no (or an empty) bot token configured raises a
ValidationError without producing any request for the transport; with a
non-empty bot token and non-empty guild id, user id and user access
token it produces exactly one PUT request to
/guilds/(guild)/members/(user) whose headers carry Authorization Bot
followed by the token, and whose JSON body carries the supplied access
token in its access_token field. -/
theorem C4_addUserToGuild_contract (c : OAuth2Client)
    (guildId userId userAccessToken token : String) (options : AddGuildMemberOptions) :
    (falsyStr c.botToken = true →
      c.addUserToGuild guildId userId userAccessToken options
        = Except.error (OAuth2Err.validation "Bot token is required to add members to a guild"))
    ∧ (c.botToken = some token → token ≠ "" → guildId ≠ "" → userId ≠ "" →
        userAccessToken ≠ "" →
      c.addUserToGuild guildId userId userAccessToken options
          = Except.ok (HttpClient.putReq
              (c.apiEndpoint ++ "/guilds/" ++ guildId ++ "/members/" ++ userId)
              (addGuildMemberPayload userAccessToken options)
              [("Authorization", "Bot " ++ token)])
        ∧ ("Authorization", "Bot " ++ token) ∈ (HttpClient.putReq
              (c.apiEndpoint ++ "/guilds/" ++ guildId ++ "/members/" ++ userId)
              (addGuildMemberPayload userAccessToken options)
              [("Authorization", "Bot " ++ token)]).headers
        ∧ (addGuildMemberPayload userAccessToken options).getField "access_token"
            = some (Json.str userAccessToken)) := by
  constructor
  · intro h
    simp [OAuth2Client.addUserToGuild, h]
  · intro hbt htok hg hu ha
    refine ⟨?_, ?_, ?_⟩
    · simp [OAuth2Client.addUserToGuild, hbt, falsyStr, isEmpty_false_of_ne token htok,
        isEmpty_false_of_ne guildId hg, isEmpty_false_of_ne userId hu,
        isEmpty_false_of_ne userAccessToken ha]
    · simp [HttpClient.putReq]
    · simp [addGuildMemberPayload, Json.getField, List.lookup]

/-- Witness for C4: the no-token client errors, the configured client
produces the expected PUT. -/
theorem C4_addUserToGuild_contract_witness :
    OAuth2Client.addUserToGuild ⟨"id", "secret", "https://cb.example", DEFAULT_API_ENDPOINT, none⟩
        "123" "456" "user-token" ⟨none, none, none, none⟩
      = Except.error (OAuth2Err.validation "Bot token is required to add members to a guild")
    ∧ OAuth2Client.addUserToGuild
        ⟨"id", "secret", "https://cb.example", DEFAULT_API_ENDPOINT, some "bot-token"⟩
        "123" "456" "user-token" ⟨none, none, none, none⟩
      = Except.ok (HttpClient.putReq
          (DEFAULT_API_ENDPOINT ++ "/guilds/" ++ "123" ++ "/members/" ++ "456")
          (addGuildMemberPayload "user-token" ⟨none, none, none, none⟩)
          [("Authorization", "Bot " ++ "bot-token")])
    ∧ (addGuildMemberPayload "user-token" ⟨none, none, none, none⟩).getField "access_token"
      = some (Json.str "user-token") := by
  obtain ⟨h1, -, h3⟩ :=
    (C4_addUserToGuild_contract
      ⟨"id", "secret", "https://cb.example", DEFAULT_API_ENDPOINT, some "bot-token"⟩
      "123" "456" "user-token" "bot-token" ⟨none, none, none, none⟩).2
      rfl (by decide) (by decide) (by decide) (by decide)
  exact ⟨(C4_addUserToGuild_contract
      ⟨"id", "secret", "https://cb.example", DEFAULT_API_ENDPOINT, none⟩
      "123" "456" "user-token" "tok" ⟨none, none, none, none⟩).1 rfl, h1, h3⟩

/-- C6: every non-success response makes HttpClient.request throw a
DiscordAPIRequestError carrying the status code, with the message drawn
from the parsed JSON error body when present and truthy, else from the
status text when non-empty, else the fixed unknown-error string; a
malformed (rejected parse) or non-JSON body is treated exactly like an
absent body and never disturbs error construction. -/
theorem C6_request_error_construction (resp : HttpResponse) (hok : resp.ok = false) :
    (∃ m code errs, HttpClient.request resp
        = Except.error (OAuth2Err.request m resp.status code errs))
    ∧ (∀ e m, resp.contentTypeJson = true → resp.body = BodyParse.object e →
        e.message = some m → m ≠ "" →
        HttpClient.request resp
          = Except.error (OAuth2Err.request m resp.status e.code e.errors))
    ∧ ((resp.contentTypeJson = false ∨ resp.body = BodyParse.failure
          ∨ resp.body = BodyParse.nullish) →
        HttpClient.request resp
          = Except.error (OAuth2Err.request (jsOrStr (some resp.statusText) "Unknown error")
              resp.status none none))
    ∧ (∀ e, resp.contentTypeJson = true → resp.body = BodyParse.object e →
        (e.message = none ∨ e.message = some "") →
        HttpClient.request resp
          = Except.error (OAuth2Err.request (jsOrStr (some resp.statusText) "Unknown error")
              resp.status e.code e.errors)) := by
  obtain ⟨ok, status, stext, ctype, body⟩ := resp
  simp only at hok
  subst hok
  refine ⟨⟨_, _, _, rfl⟩, ?_, ?_, ?_⟩
  · intro e m hct hbody hmsg hne
    simp only at hct hbody
    subst hct
    subst hbody
    obtain ⟨ecode, emsg, eerrs⟩ := e
    simp only at hmsg
    subst hmsg
    simp [HttpClient.request, jsOrStr, isEmpty_false_of_ne m hne]
  · rintro (hct | hbody | hbody)
    · simp only at hct
      subst hct
      rfl
    · simp only at hbody
      subst hbody
      cases ctype <;> rfl
    · simp only at hbody
      subst hbody
      cases ctype <;> rfl
  · intro e hct hbody hmsg
    simp only at hct hbody
    subst hct
    subst hbody
    obtain ⟨ecode, emsg, eerrs⟩ := e
    simp only at hmsg
    rcases hmsg with rfl | rfl <;> rfl

/-- Witness for C6: an HTTP 400 with JSON body message invalid_grant and
code 5 produces exactly that DiscordAPIRequestError. -/
theorem C6_request_error_construction_witness :
    HttpClient.request
        ⟨false, 400, "Bad Request", true, BodyParse.object ⟨some 5, some "invalid_grant", none⟩⟩
      = Except.error (OAuth2Err.request "invalid_grant" 400 (some 5) none) :=
  (C6_request_error_construction
      ⟨false, 400, "Bad Request", true, BodyParse.object ⟨some 5, some "invalid_grant", none⟩⟩
      rfl).2.1 ⟨some 5, some "invalid_grant", none⟩ "invalid_grant" rfl rfl rfl (by decide)

/-- C7: generateBotAuthUrl with no extra scopes yields a query whose scope
parameter is exactly bot and which omits redirect_uri and response_type;
with extra scopes supplied the scope parameter is bot followed by the
extras space-joined and redirect_uri plus response_type code are present;
a numeric permissions option always appears as its decimal string. -/
theorem C7_generateBotAuthUrl_query (c : OAuth2Client) (options : BotAuthorizationUrlOptions) :
    ((options.scopes = none ∨ options.scopes = some []) →
      ((c.generateBotAuthUrl options).query.lookup "scope" = some "bot"
        ∧ (c.generateBotAuthUrl options).query.lookup "redirect_uri" = none
        ∧ (c.generateBotAuthUrl options).query.lookup "response_type" = none))
    ∧ (∀ extra, options.scopes = some extra → extra ≠ [] →
      ((c.generateBotAuthUrl options).query.lookup "scope"
          = some (scopesToString ("bot" :: extra))
        ∧ (c.generateBotAuthUrl options).query.lookup "redirect_uri" = some c.redirectUri
        ∧ (c.generateBotAuthUrl options).query.lookup "response_type" = some "code"))
    ∧ (∀ n, options.permissions = some (PermissionsParam.num n) →
      (c.generateBotAuthUrl options).query.lookup "permissions" = some (Nat.repr n)) := by
  obtain ⟨perm, gid, dgs, sc, st⟩ := options
  refine ⟨?_, ?_, ?_⟩
  · rintro (hsc | hsc) <;> simp only at hsc <;> subst hsc <;>
      simp [OAuth2Client.generateBotAuthUrl, buildUrl, scopesToString_bot,
        lookup_queryOf_cons_ne, lookup_queryOf_cons_some, lookup_queryOf_nil]
  · intro extra hsc hne
    simp only at hsc
    subst hsc
    have hie : extra.isEmpty = false := by
      cases extra with
      | nil => exact absurd rfl hne
      | cons x xs => rfl
    simp [OAuth2Client.generateBotAuthUrl, buildUrl, hie, List.cons_append,
      lookup_queryOf_cons_ne, lookup_queryOf_cons_some, lookup_queryOf_nil]
  · intro n hperm
    simp only at hperm
    subst hperm
    rcases sc with _ | extra
    · simp [OAuth2Client.generateBotAuthUrl, buildUrl, normalizePermissions,
        lookup_queryOf_cons_ne, lookup_queryOf_cons_some]
    · cases extra with
      | nil =>
        simp [OAuth2Client.generateBotAuthUrl, buildUrl, normalizePermissions,
          lookup_queryOf_cons_ne, lookup_queryOf_cons_some]
      | cons x xs =>
        simp [OAuth2Client.generateBotAuthUrl, buildUrl, normalizePermissions, List.cons_append,
          lookup_queryOf_cons_ne, lookup_queryOf_cons_some]

/-- Witness for C7 at a concrete client: one call with no extra scopes and
numeric permissions 8, one call with one extra scope. -/
theorem C7_generateBotAuthUrl_query_witness :
    (OAuth2Client.generateBotAuthUrl ⟨"id", "secret", "https://cb.example", DEFAULT_API_ENDPOINT, none⟩
        ⟨some (PermissionsParam.num 8), none, none, none, none⟩).query.lookup "scope" = some "bot"
    ∧ (OAuth2Client.generateBotAuthUrl ⟨"id", "secret", "https://cb.example", DEFAULT_API_ENDPOINT, none⟩
        ⟨some (PermissionsParam.num 8), none, none, none, none⟩).query.lookup "redirect_uri" = none
    ∧ (OAuth2Client.generateBotAuthUrl ⟨"id", "secret", "https://cb.example", DEFAULT_API_ENDPOINT, none⟩
        ⟨some (PermissionsParam.num 8), none, none, none, none⟩).query.lookup "permissions"
      = some (Nat.repr 8)
    ∧ (OAuth2Client.generateBotAuthUrl ⟨"id", "secret", "https://cb.example", DEFAULT_API_ENDPOINT, none⟩
        ⟨none, none, none, some ["identify"], none⟩).query.lookup "scope"
      = some (scopesToString ["bot", "identify"])
    ∧ (OAuth2Client.generateBotAuthUrl ⟨"id", "secret", "https://cb.example", DEFAULT_API_ENDPOINT, none⟩
        ⟨none, none, none, some ["identify"], none⟩).query.lookup "redirect_uri"
      = some "https://cb.example"
    ∧ (OAuth2Client.generateBotAuthUrl ⟨"id", "secret", "https://cb.example", DEFAULT_API_ENDPOINT, none⟩
        ⟨none, none, none, some ["identify"], none⟩).query.lookup "response_type" = some "code" := by
  obtain ⟨hs1, hr1, -⟩ :=
    (C7_generateBotAuthUrl_query ⟨"id", "secret", "https://cb.example", DEFAULT_API_ENDPOINT, none⟩
      ⟨some (PermissionsParam.num 8), none, none, none, none⟩).1 (Or.inl rfl)
  have hp1 :=
    (C7_generateBotAuthUrl_query ⟨"id", "secret", "https://cb.example", DEFAULT_API_ENDPOINT, none⟩
      ⟨some (PermissionsParam.num 8), none, none, none, none⟩).2.2 8 rfl
  obtain ⟨hs2, hr2, ht2⟩ :=
    (C7_generateBotAuthUrl_query ⟨"id", "secret", "https://cb.example", DEFAULT_API_ENDPOINT, none⟩
      ⟨none, none, none, some ["identify"], none⟩).2.1 ["identify"] rfl (by decide)
  exact ⟨hs1, hr1, hp1, hs2, hr2, ht2⟩
